import Mathlib

/-!
Shallow embedding of the eggo ETL task layer (`eggo/dag.py`).

Each Luigi task's `run` method is modelled as a pure function from its
parameters and an `Oracle` (the results supplied by the outside world:
temp-directory creation, S3 existence checks, random ids, and the exit
statuses of spawned subprocesses) to a trace of external `Event`s together
with an `Outcome` (normal return or a propagated Python exception).

Subprocess launches (`Popen` + `wait`) are modelled as `Event.cmd` entries
carrying the formatted command string and the exit status the oracle
assigns; mirroring the source, the status is recorded but never branched
on.  The only raise points in the source are `mkdtemp` failures and the
explicit `raise ValueError` statements, which is what the `Outcome.error`
paths model.
-/

namespace Eggo

/-- S3 bucket URLs supplied by `eggo.config` (not under `src/`); modelled
from the spec ("Environment-provided locations").  Their concrete values
never matter to the properties proved below. -/
def EGGO_S3_BUCKET_URL : String := "s3://bdg-eggo"

def EGGO_S3N_BUCKET_URL : String := "s3n://bdg-eggo"

def EGGO_S3_RAW_URL : String := "s3://bdg-eggo-raw"

def EGGO_S3N_RAW_URL : String := "s3n://bdg-eggo-raw"

def EGGO_S3_TMP_URL : String := "s3://bdg-eggo-tmp"

/-- `os.path.join(a, b)` for the two-argument uses in `dag.py`. -/
def pathJoin (a b : String) : String :=
  if b.startsWith "/" then b
  else if a = "" || a.endsWith "/" then a ++ b
  else a ++ "/" ++ b

/-- Characters after the last path separator (`os.path` basename step of
`splitext`, which only considers dots after the final slash). -/
def baseOf (cs : List Char) : List Char :=
  (cs.reverse.takeWhile (fun c => c ≠ '/')).reverse

/-- Extension (including the dot) of a basename, following Python's
`os.path.splitext`: the suffix starting at the last dot, except that a
basename consisting only of leading dots before that dot has no
extension. -/
def extOfBase (b : List Char) : List Char :=
  let r := b.reverse
  let pre := r.takeWhile (fun c => c ≠ '.')
  if pre.length = r.length then []
  else if (r.drop (pre.length + 1)).any (fun c => c ≠ '.') then
    '.' :: pre.reverse
  else []

/-- `os.path.splitext(s)[-1]`: the extension of `s`, dot included. -/
def splitextExt (s : String) : String :=
  String.mk (extOfBase (baseOf s.data))

/-- Modelled from the spec: `eggo.util.build_s3_filename` is not under
`src/`; the spec says each source's destination name is computed from its
URL and compression flag ("destination naming rule"), modelled as the URL
basename with the compression extension stripped when decompression
applies.  Only determinism of this function matters to the claims. -/
def build_s3_filename (url : String) (decompress : Bool) : String :=
  let b := baseOf url.data
  if decompress then String.mk (b.take (b.length - (extOfBase b).length))
  else String.mk b

/-- `destination.replace('s3:', 's3n:')` (Python `str.replace`, leftmost
scan, all occurrences). -/
def replaceS3Aux : List Char → List Char
  | 's' :: '3' :: ':' :: rest => 's' :: '3' :: 'n' :: ':' :: replaceS3Aux rest
  | c :: rest => c :: replaceS3Aux rest
  | [] => []

def s3ToS3n (s : String) : String := String.mk (replaceS3Aux s.data)

def raw_data_s3_url (dataset_name : String) : String :=
  pathJoin EGGO_S3_RAW_URL dataset_name ++ "/"

def raw_data_s3n_url (dataset_name : String) : String :=
  pathJoin EGGO_S3N_RAW_URL dataset_name ++ "/"

def target_s3_url (dataset_name format edition : String) : String :=
  pathJoin (pathJoin (pathJoin EGGO_S3_BUCKET_URL dataset_name) format) edition ++ "/"

def target_s3n_url (dataset_name format edition : String) : String :=
  pathJoin (pathJoin (pathJoin EGGO_S3N_BUCKET_URL dataset_name) format) edition ++ "/"

def dataset_s3n_url (dataset_name : String) : String :=
  pathJoin EGGO_S3N_BUCKET_URL dataset_name ++ "/"

/-- Python `str.lower` for the ASCII range (dataset format names are
ASCII identifiers such as "vcf", "sam", "bam"). -/
def charLower (c : Char) : Char :=
  if 65 ≤ c.toNat ∧ c.toNat ≤ 90 then Char.ofNat (c.toNat + 32) else c

def strLower (s : String) : String := String.mk (s.data.map charLower)

/-- One `{url, format, compression}` source descriptor of a dataset
configuration. -/
structure Source where
  url : String
  format : String
  compression : Bool
  deriving DecidableEq, Repr

/-- A validated dataset configuration (`name`, `sources`, `editions`). -/
structure Config where
  name : String
  sources : List Source
  editions : List String
  deriving DecidableEq, Repr

/-- Kind tag of a spawned external command, identifying which `Popen`
call site of `dag.py` produced it. -/
inductive CmdKind where
  | fetch        -- curl download (DownloadFileTask step 1)
  | decompress   -- gunzip (DownloadFileTask step 2)
  | s3upload     -- aws s3 cp to the tmp S3 location (step 3)
  | s3move       -- aws s3 mv to the final target (step 4)
  | hdfsPut      -- hadoop fs -put of the command file
  | streamingJob -- hadoop streaming download job
  | distcp       -- hadoop distcp staging copy
  | adamSubmit   -- adam-submit conversion job
  | adamFlatten  -- adam-submit flatten job
  | hdfsDelete   -- hadoop fs -rm -r
  deriving DecidableEq, Repr

/-- Externally observable events of a `run`.  `Event.cmd k c out st` is a
`Popen(c, shell=True)` + `wait()` returning exit status `st`; `out` is the
location at which the spawned job, when it succeeds, deposits its own
`_SUCCESS` completion marker (modelled from the spec: the batch/conversion
frameworks write the marker at their output location on success; `none`
for commands that produce no marker). -/
inductive Event where
  | acquireTmp (dir : String)
  | releaseTmp (dir : String)
  | cmd (k : CmdKind) (c : String) (out : Option String) (st : Int)
  | s3Exists (path : String) (res : Bool)
  | putSuccess (path : String)
  | writeFile (path : String) (lines : List String)
  | log (s : String)
  deriving DecidableEq, Repr

/-- Result of a `run`: normal return, or a propagated exception. -/
inductive Outcome where
  | ok
  | error (msg : String)
  deriving DecidableEq, Repr

/-- The nondeterministic inputs a `run` consumes from its environment:
environment variables, `mkdtemp` results, S3 existence answers,
`random_id()` values, and the exit status of the i-th spawned command. -/
structure Oracle where
  ephemeralMount : String
  mkdtempOk : Bool
  tmpDir : String
  mkdtempOk2 : Bool
  hadoopTmpDir : String
  hadoopHome : String
  streamingJar : String
  adamHome : String
  sparkMasterUrl : String
  s3ex : String → Bool
  randIds : Nat → String
  status : Nat → Int

/-- `DownloadFileTask.run` (dag.py lines 78-116): fetch with curl,
optionally gunzip, upload to a tmp S3 path, move to the final target;
`finally: rmtree(tmp_dir)` on every path.  Exit statuses of the four
commands are recorded and, as in the source, never inspected.  If
`mkdtemp` itself fails the `finally` block references the unbound
`tmp_dir` and raises. -/
def downloadFileRun (source target : String) (compression : Bool)
    (o : Oracle) : List Event × Outcome :=
  if o.mkdtempOk = false then
    ([], .error "UnboundLocalError: tmp_dir")
  else
    let tmpDir := o.tmpDir
    let fetchEv := Event.cmd .fetch
      ("pushd " ++ tmpDir ++ " && curl -s -L -O " ++ source ++ " && popd")
      none (o.status 0)
    let tmpS3Path := pathJoin EGGO_S3_TMP_URL (o.randIds 0)
    if compression then
      let compression_type := splitextExt source
      if compression_type = ".gz" then
        ([Event.acquireTmp tmpDir, fetchEv,
          Event.cmd .decompress
            ("pushd " ++ tmpDir ++ " && gunzip *.gz && popd") none (o.status 1),
          Event.cmd .s3upload
            ("pushd " ++ tmpDir ++ " && aws s3 cp ./* " ++ tmpS3Path ++ " && popd")
            none (o.status 2),
          Event.cmd .s3move
            ("aws s3 mv " ++ tmpS3Path ++ " " ++ target) none (o.status 3),
          Event.releaseTmp tmpDir], .ok)
      else
        ([Event.acquireTmp tmpDir, fetchEv, Event.releaseTmp tmpDir],
         .error ("ValueError: Unknown compression type: " ++ compression_type))
    else
      ([Event.acquireTmp tmpDir, fetchEv,
        Event.cmd .s3upload
          ("pushd " ++ tmpDir ++ " && aws s3 cp ./* " ++ tmpS3Path ++ " && popd")
          none (o.status 1),
        Event.cmd .s3move
          ("aws s3 mv " ++ tmpS3Path ++ " " ++ target) none (o.status 2),
        Event.releaseTmp tmpDir], .ok)

/-- Destination URL of one source under a destination prefix
(`os.path.join(self.destination, build_s3_filename(...))`). -/
def destUrl (destination : String) (s : Source) : String :=
  pathJoin destination (build_s3_filename s.url s.compression)

/-- The existence checks of the planning loop of
`DownloadDatasetParallelTask.run` (one `s3client.exists` per source, in
order). -/
def planEvents (sources : List Source) (destination : String)
    (ex : String → Bool) : List Event :=
  sources.map (fun s => Event.s3Exists (destUrl destination s) (ex (destUrl destination s)))

/-- The `sources_to_download` list built by the planning loop: a source is
appended exactly when its destination URL does not exist. -/
def planSources (sources : List Source) (destination : String)
    (ex : String → Bool) : List Source :=
  sources.foldl
    (fun acc s => if ex (destUrl destination s) then acc else acc ++ [s]) []

/-- The command-file lines built for the pending sources (step 2 of
`DownloadDatasetParallelTask.run`), one line per source; hitting a
compression extension other than `.gz` raises `ValueError` mid-loop,
leaving only the lines already written. -/
def buildCommandLines (ephem destination : String) (randIds : Nat → String) :
    List Source → Nat → List String × Option String
  | [], _ => ([], none)
  | s :: rest, i =>
    let tmpS3Path := pathJoin EGGO_S3_TMP_URL (randIds i)
    let dest_url := destUrl destination s
    if s.compression = false then
      let line := ephem ++ " " ++ s.url ++ " NONE " ++ tmpS3Path ++ " " ++ dest_url
      let r := buildCommandLines ephem destination randIds rest (i + 1)
      (line :: r.1, r.2)
    else
      let compression_ext := splitextExt s.url
      if compression_ext = ".gz" then
        let line := ephem ++ " " ++ s.url ++ " GZIP " ++ tmpS3Path ++ " " ++ dest_url
        let r := buildCommandLines ephem destination randIds rest (i + 1)
        (line :: r.1, r.2)
      else
        ([], some ("ValueError: Unknown compression type: " ++ compression_ext))

/-- The hadoop streaming command string of step 4. -/
def streamingCmdStr (hadoopHome streamingJar input output : String) : String :=
  hadoopHome ++ "/bin/hadoop jar " ++ streamingJar ++
  "  -D mapred.reduce.tasks=0" ++
  "  -D mapred.map.tasks.speculative.execution=false" ++
  "  -D mapred.task.timeout=12000000" ++
  "  -input " ++ input ++
  "  -inputformat org.apache.hadoop.mapred.lib.NLineInputFormat" ++
  "  -output " ++ output ++
  "  -outputformat org.apache.hadoop.mapred.lib.NullOutputFormat" ++
  "  -mapper bin/download_upload_mapper.sh" ++
  "  -file bin/download_upload_mapper.sh"

/-- `DownloadDatasetParallelTask.run` (dag.py lines 148-226): plan which
sources are missing at the destination; if none, write the `_SUCCESS`
marker and return; otherwise write the command file (a bad compression
extension raises mid-write), stage it to the Hadoop filesystem, and launch
the streaming download job — both exit statuses recorded, never inspected.
`finally: rmtree(tmp_dir)` on every path.  The marker appears at the
streaming job's `-output` location (the destination) only through the job
itself succeeding, which the trace records via the command's `out`
field. -/
def parallelRun (cfg : Config) (destination : String) (o : Oracle) :
    List Event × Outcome :=
  if o.mkdtempOk = false then
    ([], .error "UnboundLocalError: tmp_dir")
  else
    let evPlan := planEvents cfg.sources destination o.s3ex
    let std := planSources cfg.sources destination o.s3ex
    let evLog := Event.log "Sources to download:\n" ::
      std.map (fun s => Event.log ("    " ++ s.url ++ "\n"))
    let evPre := Event.acquireTmp o.tmpDir :: (evPlan ++ evLog)
    if std.length = 0 then
      (evPre ++ [Event.putSuccess destination, Event.releaseTmp o.tmpDir], .ok)
    else
      let tmpCommandFile := o.tmpDir ++ "/command_file"
      let built := buildCommandLines o.ephemeralMount destination o.randIds std 0
      match built.2 with
      | some e =>
        (evPre ++ [Event.writeFile tmpCommandFile built.1,
                   Event.releaseTmp o.tmpDir], .error e)
      | none =>
        if o.mkdtempOk2 = false then
          (evPre ++ [Event.writeFile tmpCommandFile built.1,
                     Event.releaseTmp o.tmpDir], .error "OSError: mkdtemp")
        else
          (evPre ++ [Event.writeFile tmpCommandFile built.1,
                     Event.acquireTmp o.hadoopTmpDir,
                     Event.cmd .hdfsPut
                       (o.hadoopHome ++ "/bin/hadoop fs -put " ++ tmpCommandFile
                         ++ " " ++ o.hadoopTmpDir) none (o.status 0),
                     Event.cmd .streamingJob
                       (streamingCmdStr o.hadoopHome o.streamingJar
                         o.hadoopTmpDir (s3ToS3n destination))
                       (some destination) (o.status 1),
                     Event.releaseTmp o.tmpDir], .ok)

/-- `ADAMBasicTask.run` (dag.py lines 254-277): validate the first
source's format against the allowed formats (raising `ValueError`
otherwise, before anything else happens), then distcp the raw data to the
Hadoop filesystem and launch the adam-submit conversion job; both exit
statuses recorded, never inspected.  The conversion job deposits its own
`_SUCCESS` marker at the target URL when it succeeds (the `out` field). -/
def adamBasicRun (cfg : Config) (adam_command : String)
    (allowed_file_formats : List String) (o : Oracle) : List Event × Outcome :=
  match cfg.sources with
  | [] => ([], .error "IndexError: list index out of range")
  | s0 :: _ =>
    let format := strLower s0.format
    if format ∉ allowed_file_formats then
      ([], .error ("ValueError: Format \x27" ++ format ++ "\x27 not in allowed formats ["
        ++ String.intercalate ", " allowed_file_formats ++ "]."))
    else
      let tmpHadoopPath := "/tmp/" ++ o.randIds 0 ++ "." ++ format
      ([Event.cmd .distcp
          (o.hadoopHome ++ "/bin/hadoop distcp " ++ raw_data_s3n_url cfg.name
            ++ " " ++ tmpHadoopPath) none (o.status 0),
        Event.cmd .adamSubmit
          (o.adamHome ++ "/bin/adam-submit --master " ++ o.sparkMasterUrl ++ " "
            ++ adam_command ++ " " ++ tmpHadoopPath ++ " "
            ++ target_s3n_url cfg.name "bdg" "basic")
          (some (target_s3_url cfg.name "bdg" "basic")) (o.status 1)], .ok)

/-- `ADAMFlattenTask.run` (dag.py lines 295-303): launch the adam-submit
flatten job from the basic edition to the flat edition; exit status
recorded, never inspected. -/
def adamFlattenRun (cfg : Config) (o : Oracle) : List Event × Outcome :=
  ([Event.cmd .adamFlatten
      (o.adamHome ++ "/bin/adam-submit --master " ++ o.sparkMasterUrl
        ++ " flatten " ++ target_s3n_url cfg.name "bdg" "basic" ++ " "
        ++ target_s3n_url cfg.name "bdg" "flat")
      (some (target_s3_url cfg.name "bdg" "flat")) (o.status 0)], .ok)

/-- `DeleteDatasetTask.run` (dag.py lines 235-241): one recursive hadoop
delete over the raw and target prefixes; exit status recorded, never
inspected. -/
def deleteDatasetRun (cfg : Config) (o : Oracle) : List Event × Outcome :=
  ([Event.cmd .hdfsDelete
      (o.hadoopHome ++ "/bin/hadoop fs -rm -r " ++ raw_data_s3n_url cfg.name
        ++ " " ++ dataset_s3n_url cfg.name) none (o.status 0)], .ok)

/-- Task identities, for the `requires` dependency lists. -/
inductive TaskRef where
  | downloadFile (source target : String) (compression : Bool)
  | downloadDatasetParallel (cfg : Config) (destination : String)
  | adamBasic (cfg : Config) (adam_command : String) (allowed : List String)
  | adamFlatten (cfg : Config) (adam_command : String) (allowed : List String)
  deriving DecidableEq, Repr

/-- `ADAMFlattenTask.requires` (dag.py lines 291-293). -/
def adamFlattenRequires (cfg : Config) (adam_command : String)
    (allowed : List String) : TaskRef :=
  TaskRef.adamBasic cfg adam_command allowed

/-- The shared edition loop of `VCF2ADAMTask.requires` and
`BAM2ADAMTask.requires`: start from `[basic]`, appending `flat` for each
`"flat"` entry of the editions list ("basic" entries are a no-op). -/
def editionDeps (basic flat : TaskRef) (editions : List String) : List TaskRef :=
  editions.foldl
    (fun deps e =>
      if e = "basic" then deps
      else if e = "flat" then deps ++ [flat]
      else deps)
    [basic]

/-- `VCF2ADAMTask.requires` (dag.py lines 313-324). -/
def vcf2adamRequires (cfg : Config) : List TaskRef :=
  editionDeps (TaskRef.adamBasic cfg "vcf2adam" ["vcf"])
    (TaskRef.adamFlatten cfg "vcf2adam" ["vcf"]) cfg.editions

/-- `BAM2ADAMTask.requires` (dag.py lines 331-342). -/
def bam2adamRequires (cfg : Config) : List TaskRef :=
  editionDeps (TaskRef.adamBasic cfg "transform" ["sam", "bam"])
    (TaskRef.adamFlatten cfg "transform" ["sam", "bam"]) cfg.editions

/-- Whether an event writes the `_SUCCESS` completion marker at `dest`:
either a direct `create_SUCCESS_file` put, or a spawned job whose output
marker location is `dest` reporting success (exit status 0); modelled
from the spec's "the marker is written only after the batch job itself
reports success". -/
def marksDest (dest : String) : Event → Bool
  | .putSuccess p => p = dest
  | .cmd _ _ out st => out = some dest && st = 0
  | _ => false

/-- The run produced the completion marker at `dest`. -/
def markerWritten (evs : List Event) (dest : String) : Bool :=
  evs.any (marksDest dest)

/-- Trace contains a command of kind `k`. -/
def hasCmdKind (k : CmdKind) (evs : List Event) : Bool :=
  evs.any fun e => match e with
    | .cmd k' _ _ _ => k' = k
    | _ => false

/-- Number of S3 existence checks in a trace. -/
def countExistChecks (evs : List Event) : Nat :=
  evs.countP fun e => match e with
    | .s3Exists _ _ => true
    | _ => false

/-- Trace contains no spawned command at all. -/
def noCmd (evs : List Event) : Bool :=
  evs.all fun e => match e with
    | .cmd _ _ _ _ => false
    | _ => true

/-- The streaming download job was launched and reported success. -/
def streamingJobSucceeded (evs : List Event) : Bool :=
  evs.any fun e => match e with
    | .cmd .streamingJob _ _ st => st = 0
    | _ => false

/-- Forget exit statuses, for stating that control flow and command
issuance are independent of them. -/
def eraseStatus : Event → Event
  | .cmd k c out _ => .cmd k c out 0
  | e => e

def statusErased (r : List Event × Outcome) : List Event × Outcome :=
  (r.1.map eraseStatus, r.2)

/-! ### Helper lemmas -/

theorem markerWritten_append (a b : List Event) (d : String) :
    markerWritten (a ++ b) d = (markerWritten a d || markerWritten b d) := by
  simp [markerWritten]

theorem markerWritten_cons (e : Event) (t : List Event) (d : String) :
    markerWritten (e :: t) d = (marksDest d e || markerWritten t d) := by
  simp [markerWritten]

theorem markerWritten_planEvents (ss : List Source) (dest : String)
    (ex : String → Bool) (d : String) :
    markerWritten (planEvents ss dest ex) d = false := by
  induction ss with
  | nil => rfl
  | cons s t ih =>
    simpa [planEvents, markerWritten, marksDest] using ih

theorem markerWritten_logMap (ss : List Source) (d : String) :
    markerWritten (ss.map fun s => Event.log ("    " ++ s.url ++ "\n")) d = false := by
  induction ss with
  | nil => rfl
  | cons s t ih => simpa [markerWritten, marksDest] using ih

theorem streaming_append (a b : List Event) :
    streamingJobSucceeded (a ++ b)
      = (streamingJobSucceeded a || streamingJobSucceeded b) := by
  simp [streamingJobSucceeded]

theorem streaming_planEvents (ss : List Source) (dest : String)
    (ex : String → Bool) :
    streamingJobSucceeded (planEvents ss dest ex) = false := by
  induction ss with
  | nil => rfl
  | cons s t ih => simpa [planEvents, streamingJobSucceeded] using ih

theorem streaming_logMap (ss : List Source) :
    streamingJobSucceeded (ss.map fun s => Event.log ("    " ++ s.url ++ "\n"))
      = false := by
  induction ss with
  | nil => rfl
  | cons s t ih => simpa [streamingJobSucceeded] using ih

theorem hasCmdKind_append (k : CmdKind) (a b : List Event) :
    hasCmdKind k (a ++ b) = (hasCmdKind k a || hasCmdKind k b) := by
  simp [hasCmdKind]

theorem hasCmdKind_planEvents (k : CmdKind) (ss : List Source) (dest : String)
    (ex : String → Bool) : hasCmdKind k (planEvents ss dest ex) = false := by
  induction ss with
  | nil => rfl
  | cons s t ih => simpa [planEvents, hasCmdKind] using ih

theorem hasCmdKind_logMap (k : CmdKind) (ss : List Source) :
    hasCmdKind k (ss.map fun s => Event.log ("    " ++ s.url ++ "\n")) = false := by
  induction ss with
  | nil => rfl
  | cons s t ih => simpa [hasCmdKind] using ih

theorem noCmd_append (a b : List Event) :
    noCmd (a ++ b) = (noCmd a && noCmd b) := by
  simp [noCmd]

theorem noCmd_planEvents (ss : List Source) (dest : String) (ex : String → Bool) :
    noCmd (planEvents ss dest ex) = true := by
  induction ss with
  | nil => rfl
  | cons s t ih => simpa [planEvents, noCmd] using ih

theorem noCmd_logMap (ss : List Source) :
    noCmd (ss.map fun s => Event.log ("    " ++ s.url ++ "\n")) = true := by
  induction ss with
  | nil => rfl
  | cons s t ih => simpa [noCmd] using ih

theorem countExistChecks_append (a b : List Event) :
    countExistChecks (a ++ b) = countExistChecks a + countExistChecks b := by
  simp [countExistChecks, List.countP_append]

theorem countExistChecks_planEvents (ss : List Source) (dest : String)
    (ex : String → Bool) : countExistChecks (planEvents ss dest ex) = ss.length := by
  induction ss with
  | nil => rfl
  | cons s t ih => simpa [planEvents, countExistChecks, List.countP_cons] using ih

theorem countExistChecks_logMap (ss : List Source) :
    countExistChecks (ss.map fun s => Event.log ("    " ++ s.url ++ "\n")) = 0 := by
  induction ss with
  | nil => rfl
  | cons s t ih => simpa [countExistChecks, List.countP_cons] using ih

theorem planSources_foldl_aux (dest : String) (ex : String → Bool)
    (ss : List Source) (acc : List Source) :
    ss.foldl (fun acc s => if ex (destUrl dest s) then acc else acc ++ [s]) acc
      = acc ++ ss.filter (fun s => !ex (destUrl dest s)) := by
  induction ss generalizing acc with
  | nil => simp
  | cons s t ih =>
    by_cases h : ex (destUrl dest s) <;>
      simp [List.filter_cons, h, ih]

theorem planSources_eq_filter (ss : List Source) (dest : String)
    (ex : String → Bool) :
    planSources ss dest ex = ss.filter (fun s => !ex (destUrl dest s)) := by
  simpa using planSources_foldl_aux dest ex ss []

theorem editionDeps_count_basic (basic flat : TaskRef) (h : basic ≠ flat)
    (eds : List String) : (editionDeps basic flat eds).count basic = 1 := by
  unfold editionDeps
  have aux : ∀ (l : List String) (acc : List TaskRef),
      (l.foldl (fun deps e => if e = "basic" then deps
        else if e = "flat" then deps ++ [flat] else deps) acc).count basic
      = acc.count basic := by
    intro l
    induction l with
    | nil => intro acc; rfl
    | cons e t ih =>
      intro acc
      simp only [List.foldl_cons]
      by_cases h1 : e = "basic"
      · simp [h1, ih]
      · by_cases h2 : e = "flat"
        · simp [h1, h2, ih, List.count_append, List.count_cons, h]
        · simp [h1, h2, ih]
  rw [aux]
  simp [List.count_cons]

/-- A concrete environment oracle used to exercise the runs at explicit
inputs: fresh temp dirs succeed, no destination object exists yet, and
every spawned command exits 0. -/
def oracle0 : Oracle :=
  { ephemeralMount := "/mnt", mkdtempOk := true, tmpDir := "/mnt/tmp_eggo_x",
    mkdtempOk2 := true, hadoopTmpDir := "/tmp/tmp_eggo_y",
    hadoopHome := "/hadoop", streamingJar := "streaming.jar",
    adamHome := "/adam", sparkMasterUrl := "spark://master",
    s3ex := fun _ => false, randIds := fun _ => "rid",
    status := fun _ => 0 }

/-! ### Claims -/

/-- C5: the planning phase of the bulk parallel download selects exactly
the sources whose computed destination does not exist: the
`sources_to_download` list equals the source list filtered by a failing
existence check, a source is selected iff the existence check for its
destination path returns false, and with N of the M destination checks
succeeding exactly M−N sources are selected. -/
theorem planning_selects_exactly_missing (ss : List Source) (dest : String)
    (ex : String → Bool) :
    planSources ss dest ex = ss.filter (fun s => !ex (destUrl dest s))
    ∧ (∀ s, s ∈ planSources ss dest ex ↔ s ∈ ss ∧ ex (destUrl dest s) = false)
    ∧ (planSources ss dest ex).length
        + ss.countP (fun s => ex (destUrl dest s)) = ss.length := by
  refine ⟨planSources_eq_filter ss dest ex, ?_, ?_⟩
  · intro s
    rw [planSources_eq_filter]
    simp [List.mem_filter]
  · rw [planSources_eq_filter, ← List.countP_eq_length_filter]
    induction ss with
    | nil => rfl
    | cons a t ih =>
      by_cases h : ex (destUrl dest a) <;>
        simp [List.countP_cons, h, ih] <;> omega

/-- C9: for both dataset-type composition tasks, editions `["basic"]`
yield exactly the basic conversion task, editions `["basic", "flat"]`
yield exactly the basic task followed by the flatten task, the flatten
task's own dependency is the basic task for the same configuration and
conversion command, and `"basic"` entries never add a duplicate (the basic
task occurs exactly once in the dependency list for every editions
list). -/
theorem composition_requires (cfg : Config) (name : String)
    (srcs : List Source) (adam_command : String) (fmts : List String) :
    vcf2adamRequires ⟨name, srcs, ["basic"]⟩
        = [TaskRef.adamBasic ⟨name, srcs, ["basic"]⟩ "vcf2adam" ["vcf"]]
    ∧ vcf2adamRequires ⟨name, srcs, ["basic", "flat"]⟩
        = [TaskRef.adamBasic ⟨name, srcs, ["basic", "flat"]⟩ "vcf2adam" ["vcf"],
           TaskRef.adamFlatten ⟨name, srcs, ["basic", "flat"]⟩ "vcf2adam" ["vcf"]]
    ∧ bam2adamRequires ⟨name, srcs, ["basic"]⟩
        = [TaskRef.adamBasic ⟨name, srcs, ["basic"]⟩ "transform" ["sam", "bam"]]
    ∧ bam2adamRequires ⟨name, srcs, ["basic", "flat"]⟩
        = [TaskRef.adamBasic ⟨name, srcs, ["basic", "flat"]⟩ "transform" ["sam", "bam"],
           TaskRef.adamFlatten ⟨name, srcs, ["basic", "flat"]⟩ "transform" ["sam", "bam"]]
    ∧ adamFlattenRequires cfg adam_command fmts
        = TaskRef.adamBasic cfg adam_command fmts
    ∧ (vcf2adamRequires cfg).count (TaskRef.adamBasic cfg "vcf2adam" ["vcf"]) = 1
    ∧ (bam2adamRequires cfg).count
        (TaskRef.adamBasic cfg "transform" ["sam", "bam"]) = 1 := by
  refine ⟨?_, ?_, ?_, ?_, rfl, ?_, ?_⟩
  · simp [vcf2adamRequires, editionDeps]
  · simp [vcf2adamRequires, editionDeps]
  · simp [bam2adamRequires, editionDeps]
  · simp [bam2adamRequires, editionDeps]
  · exact editionDeps_count_basic (TaskRef.adamBasic cfg "vcf2adam" ["vcf"])
      (TaskRef.adamFlatten cfg "vcf2adam" ["vcf"])
      (fun h => TaskRef.noConfusion h) cfg.editions
  · exact editionDeps_count_basic (TaskRef.adamBasic cfg "transform" ["sam", "bam"])
      (TaskRef.adamFlatten cfg "transform" ["sam", "bam"])
      (fun h => TaskRef.noConfusion h) cfg.editions

/-- C7: for every dataset configuration whose (first) declared source
format, lowercased, is not among the conversion task's allowed file
formats, `ADAMBasicTask.run` raises the `ValueError` format gate as its
first action: the trace is empty, so neither the distcp staging copy nor
the adam conversion job is ever invoked. -/
theorem adam_basic_format_gate (cfg : Config) (adam_command : String)
    (fmts : List String) (o : Oracle) (s0 : Source) (rest : List Source)
    (hs : cfg.sources = s0 :: rest)
    (hfmt : strLower s0.format ∉ fmts) :
    (adamBasicRun cfg adam_command fmts o).1 = []
    ∧ (adamBasicRun cfg adam_command fmts o).2
        = .error ("ValueError: Format \x27" ++ strLower s0.format
            ++ "\x27 not in allowed formats ["
            ++ String.intercalate ", " fmts ++ "].") := by
  unfold adamBasicRun
  rw [hs]
  simp [hfmt]

/-- Witness for the format gate: a dataset whose first source declares
format "zip" against allowed formats ["vcf"] fails with an empty trace. -/
theorem adam_basic_format_gate_witness :
    (adamBasicRun ⟨"ds", [⟨"http://e/a.zip", "zip", false⟩], ["basic"]⟩
        "vcf2adam" ["vcf"] oracle0).1 = []
    ∧ (adamBasicRun ⟨"ds", [⟨"http://e/a.zip", "zip", false⟩], ["basic"]⟩
        "vcf2adam" ["vcf"] oracle0).2
      = .error ("ValueError: Format \x27" ++ strLower "zip"
          ++ "\x27 not in allowed formats ["
          ++ String.intercalate ", " ["vcf"] ++ "].") :=
  adam_basic_format_gate ⟨"ds", [⟨"http://e/a.zip", "zip", false⟩], ["basic"]⟩
    "vcf2adam" ["vcf"] oracle0 ⟨"http://e/a.zip", "zip", false⟩ [] rfl (by decide)

/-- C10: the format gate of `ADAMBasicTask.run` inspects only
`sources[0]`: whenever the first source's lowercased format is allowed,
`run` passes the gate — returning normally and invoking distcp and the
conversion job — for every choice of remaining sources, including ones
declaring disallowed formats. -/
theorem format_gate_first_source_only (name : String) (eds : List String)
    (adam_command : String) (fmts : List String) (o : Oracle)
    (s0 : Source) (rest : List Source)
    (hfmt : strLower s0.format ∈ fmts) :
    (adamBasicRun ⟨name, s0 :: rest, eds⟩ adam_command fmts o).2 = .ok
    ∧ hasCmdKind .distcp
        (adamBasicRun ⟨name, s0 :: rest, eds⟩ adam_command fmts o).1 = true
    ∧ hasCmdKind .adamSubmit
        (adamBasicRun ⟨name, s0 :: rest, eds⟩ adam_command fmts o).1 = true := by
  unfold adamBasicRun
  simp [hfmt, hasCmdKind]

/-- Witness: with an allowed first source (format "vcf") and a second
source declaring the disallowed format "zip", the run still passes the
gate and launches both external commands. -/
theorem format_gate_first_source_only_witness :
    (adamBasicRun ⟨"ds", [⟨"http://e/a.vcf", "VCF", false⟩,
        ⟨"http://e/b.zip", "zip", false⟩], ["basic"]⟩
        "vcf2adam" ["vcf"] oracle0).2 = .ok
    ∧ hasCmdKind .distcp
        (adamBasicRun ⟨"ds", [⟨"http://e/a.vcf", "VCF", false⟩,
          ⟨"http://e/b.zip", "zip", false⟩], ["basic"]⟩
          "vcf2adam" ["vcf"] oracle0).1 = true
    ∧ hasCmdKind .adamSubmit
        (adamBasicRun ⟨"ds", [⟨"http://e/a.vcf", "VCF", false⟩,
          ⟨"http://e/b.zip", "zip", false⟩], ["basic"]⟩
          "vcf2adam" ["vcf"] oracle0).1 = true :=
  format_gate_first_source_only "ds" ["basic"] "vcf2adam" ["vcf"] oracle0
    ⟨"http://e/a.vcf", "VCF", false⟩ [⟨"http://e/b.zip", "zip", false⟩]
    (by decide)

/-- C4: when every configured source already exists at its computed
destination path, `DownloadDatasetParallelTask.run` returns normally,
writes the completion marker at the destination, performs exactly one
existence check per source, and spawns no external command at all — in
particular no batch job is submitted. -/
theorem parallel_fast_path (cfg : Config) (destination : String) (o : Oracle)
    (hmk : o.mkdtempOk = true)
    (hall : ∀ s ∈ cfg.sources, o.s3ex (destUrl destination s) = true) :
    (parallelRun cfg destination o).2 = .ok
    ∧ markerWritten (parallelRun cfg destination o).1 destination = true
    ∧ countExistChecks (parallelRun cfg destination o).1 = cfg.sources.length
    ∧ noCmd (parallelRun cfg destination o).1 = true := by
  have hplan : planSources cfg.sources destination o.s3ex = [] := by
    rw [planSources_eq_filter]
    rw [List.filter_eq_nil_iff]
    intro s hs
    simp [hall s hs]
  refine ⟨?_, ?_, ?_, ?_⟩ <;>
    simp [parallelRun, hmk, hplan, markerWritten, marksDest, countExistChecks,
      noCmd, planEvents, List.countP_cons, List.countP_append, List.countP_map]

/-- Witness for the fast path: one source already present at the
destination; the run succeeds, writes the marker, checks existence once,
and spawns nothing. -/
theorem parallel_fast_path_witness :
    (parallelRun ⟨"ds", [⟨"http://e/a.txt", "vcf", false⟩], ["basic"]⟩
        "s3://dest" { oracle0 with s3ex := fun _ => true }).2 = .ok
    ∧ markerWritten (parallelRun ⟨"ds", [⟨"http://e/a.txt", "vcf", false⟩], ["basic"]⟩
        "s3://dest" { oracle0 with s3ex := fun _ => true }).1 "s3://dest" = true
    ∧ countExistChecks (parallelRun ⟨"ds", [⟨"http://e/a.txt", "vcf", false⟩], ["basic"]⟩
        "s3://dest" { oracle0 with s3ex := fun _ => true }).1
      = (Config.mk "ds" [⟨"http://e/a.txt", "vcf", false⟩] ["basic"]).sources.length
    ∧ noCmd (parallelRun ⟨"ds", [⟨"http://e/a.txt", "vcf", false⟩], ["basic"]⟩
        "s3://dest" { oracle0 with s3ex := fun _ => true }).1 = true :=
  parallel_fast_path ⟨"ds", [⟨"http://e/a.txt", "vcf", false⟩], ["basic"]⟩
    "s3://dest" { oracle0 with s3ex := fun _ => true } rfl (by decide)

/-- C8: both multi-step run procedures release their scoped temporary
working directory (the `mkdtemp` directory under the ephemeral mount,
protected by try/finally) on every exit path: whenever the directory was
acquired the trace contains its release, whatever the oracle makes each
step do; and when acquisition itself fails no directory is acquired at
all, so nothing is leaked on that path either. -/
theorem tmpdir_released (source target : String) (compression : Bool)
    (cfg : Config) (destination : String) (o : Oracle) :
    ((o.mkdtempOk = true →
        Event.releaseTmp o.tmpDir ∈ (downloadFileRun source target compression o).1)
      ∧ (o.mkdtempOk = false →
        (downloadFileRun source target compression o).1 = []))
    ∧ ((o.mkdtempOk = true →
        Event.releaseTmp o.tmpDir ∈ (parallelRun cfg destination o).1)
      ∧ (o.mkdtempOk = false →
        (parallelRun cfg destination o).1 = [])) := by
  refine ⟨⟨?_, ?_⟩, ?_, ?_⟩ <;> intro hmk
  · simp [downloadFileRun, hmk]
    split_ifs <;> simp
  · simp [downloadFileRun, hmk]
  · simp [parallelRun, hmk]
    split_ifs <;> (try split) <;> simp
  · simp [parallelRun, hmk]

/-- Witness for cleanup: on a concrete successful single-file download and
a concrete parallel download, the release of the scoped temp dir appears
in the trace. -/
theorem tmpdir_released_witness :
    Event.releaseTmp oracle0.tmpDir
      ∈ (downloadFileRun "http://e/a.txt" "s3://b/a.txt" false oracle0).1
    ∧ Event.releaseTmp oracle0.tmpDir
      ∈ (parallelRun ⟨"ds", [⟨"http://e/a.txt", "vcf", false⟩], ["basic"]⟩
          "s3://dest" oracle0).1 :=
  ⟨(tmpdir_released "http://e/a.txt" "s3://b/a.txt" false
      ⟨"ds", [⟨"http://e/a.txt", "vcf", false⟩], ["basic"]⟩ "s3://dest" oracle0).1.1 rfl,
   (tmpdir_released "http://e/a.txt" "s3://b/a.txt" false
      ⟨"ds", [⟨"http://e/a.txt", "vcf", false⟩], ["basic"]⟩ "s3://dest" oracle0).2.1 rfl⟩

/-- C6 counterexample: with a `.zip` source URL and the compression flag
set, `DownloadFileTask.run` does raise the fatal configuration error, but
the trace of that failing execution already contains the curl fetch
command — the failure does not occur before the network fetch, because the
download step precedes the compression-type check in `run`. -/
theorem unknown_compression_counterexample :
    (downloadFileRun "http://example.com/f.zip" "s3://b/f" true oracle0).2
      = .error "ValueError: Unknown compression type: .zip"
    ∧ hasCmdKind .fetch
        (downloadFileRun "http://example.com/f.zip" "s3://b/f" true oracle0).1
      = true := by decide

/-- C6 (amended): for the single-file download task with the compression
flag set and a source extension other than `.gz`, `run` raises the fatal
`ValueError` before any artifact-store operation (no staging upload, no
move, no marker write appears in the trace) — but after the network fetch
step, which has already been executed when the error is raised. -/
theorem unknown_compression_after_fetch (source target : String) (o : Oracle)
    (hmk : o.mkdtempOk = true) (hgz : splitextExt source ≠ ".gz") :
    (downloadFileRun source target true o).2
      = .error ("ValueError: Unknown compression type: " ++ splitextExt source)
    ∧ hasCmdKind .s3upload (downloadFileRun source target true o).1 = false
    ∧ hasCmdKind .s3move (downloadFileRun source target true o).1 = false
    ∧ markerWritten (downloadFileRun source target true o).1 target = false
    ∧ hasCmdKind .fetch (downloadFileRun source target true o).1 = true := by
  simp [downloadFileRun, hmk, hgz, hasCmdKind, markerWritten, marksDest]

/-- Witness for the amended claim at a concrete `.bz2` source. -/
theorem unknown_compression_after_fetch_witness :
    (downloadFileRun "http://example.com/g.bz2" "s3://b/g" true oracle0).2
      = .error ("ValueError: Unknown compression type: "
          ++ splitextExt "http://example.com/g.bz2")
    ∧ hasCmdKind .s3upload
        (downloadFileRun "http://example.com/g.bz2" "s3://b/g" true oracle0).1 = false
    ∧ hasCmdKind .s3move
        (downloadFileRun "http://example.com/g.bz2" "s3://b/g" true oracle0).1 = false
    ∧ markerWritten
        (downloadFileRun "http://example.com/g.bz2" "s3://b/g" true oracle0).1
        "s3://b/g" = false
    ∧ hasCmdKind .fetch
        (downloadFileRun "http://example.com/g.bz2" "s3://b/g" true oracle0).1 = true :=
  unknown_compression_after_fetch "http://example.com/g.bz2" "s3://b/g" oracle0
    rfl (by decide)

/-- The kinds and exit statuses of the commands a run spawned, in order. -/
def cmdStatuses (evs : List Event) : List (CmdKind × Int) :=
  evs.filterMap fun e => match e with
    | .cmd k _ _ st => some (k, st)
    | _ => none

/-- Oracle in which the first spawned command (the curl fetch) exits with
status 1 and every later command exits 0. -/
def oracleFetchFail : Oracle :=
  { oracle0 with status := fun i => if i = 0 then 1 else 0 }

/-- C2 counterexample: an execution of `DownloadFileTask.run` in which the
fetch step fails (curl exits 1) yet the remaining steps are not aborted
and no failure propagates: the staging upload and the final move are still
issued and `run` returns normally — refuting "for every execution in which
any step fails, all remaining steps are aborted and the failure
propagates". -/
theorem download_failure_not_aborted_counterexample :
    cmdStatuses (downloadFileRun "http://example.com/a.txt" "s3://b/a.txt"
        false oracleFetchFail).1
      = [(.fetch, 1), (.s3upload, 0), (.s3move, 0)]
    ∧ (downloadFileRun "http://example.com/a.txt" "s3://b/a.txt"
        false oracleFetchFail).2 = .ok := by decide

/-- C2 (amended): for `DownloadFileTask.run`, any Python-level step
failure (temp-dir acquisition failure, or an unknown compression type)
aborts the remaining steps and propagates, with no staging upload and no
move to the destination issued; failures of the external commands
themselves are however not detected — their exit statuses are discarded —
so the remaining commands are still issued and `run` returns normally.
The destination is targeted only by the final move command, which on
every normally-returning path is issued last, after the fetch, the
optional decompress, and the staging upload. -/
theorem download_file_failure_semantics (source target : String)
    (compression : Bool) (o : Oracle) :
    (∀ m, (downloadFileRun source target compression o).2 = .error m →
        hasCmdKind .s3upload (downloadFileRun source target compression o).1 = false
        ∧ hasCmdKind .s3move (downloadFileRun source target compression o).1 = false
        ∧ markerWritten (downloadFileRun source target compression o).1 target = false)
    ∧ (o.mkdtempOk = true → compression = false →
        cmdStatuses (downloadFileRun source target compression o).1
          = [(.fetch, o.status 0), (.s3upload, o.status 1), (.s3move, o.status 2)]
        ∧ (downloadFileRun source target compression o).2 = .ok)
    ∧ (o.mkdtempOk = true → compression = true → splitextExt source = ".gz" →
        cmdStatuses (downloadFileRun source target compression o).1
          = [(.fetch, o.status 0), (.decompress, o.status 1),
             (.s3upload, o.status 2), (.s3move, o.status 3)]
        ∧ (downloadFileRun source target compression o).2 = .ok) := by
  refine ⟨?_, ?_, ?_⟩
  · intro m hm
    by_cases hmk : o.mkdtempOk = false
    · simp [downloadFileRun, hmk, hasCmdKind, markerWritten]
    · cases compression
      · simp [downloadFileRun, hmk] at hm
      · by_cases hgz : splitextExt source = ".gz"
        · simp [downloadFileRun, hmk, hgz] at hm
        · simp [downloadFileRun, hmk, hgz, hasCmdKind, markerWritten, marksDest]
  · intro hmk hc
    subst hc
    simp [downloadFileRun, hmk, cmdStatuses]
  · intro hmk hc hgz
    subst hc
    simp [downloadFileRun, hmk, hgz, cmdStatuses]

/-- Witness for the amended failure semantics: at the `.zip` failing input
the staging upload, the move, and the marker are all absent. -/
theorem download_file_failure_semantics_witness :
    hasCmdKind .s3upload
      (downloadFileRun "http://example.com/f.zip" "s3://c/f" true oracle0).1 = false
    ∧ hasCmdKind .s3move
      (downloadFileRun "http://example.com/f.zip" "s3://c/f" true oracle0).1 = false
    ∧ markerWritten
      (downloadFileRun "http://example.com/f.zip" "s3://c/f" true oracle0).1
      "s3://c/f" = false :=
  (download_file_failure_semantics "http://example.com/f.zip" "s3://c/f" true
      oracle0).1 "ValueError: Unknown compression type: .zip" (by decide)

/-- C3: in every run procedure that spawns external commands, the exit
status returned by the subprocess wait is discarded and never compared to
zero: for any two assignments of exit statuses to the spawned commands,
the trace — up to the recorded statuses themselves — and the outcome of
`run` are identical.  In particular a non-zero exit of any external
command never makes `run` raise, and exactly the same subsequent commands
are issued as if the command had succeeded. -/
theorem exit_status_discarded (source target : String) (compression : Bool)
    (cfg : Config) (destination adam_command : String) (fmts : List String)
    (o : Oracle) (f g : Nat → Int) :
    statusErased (downloadFileRun source target compression { o with status := f })
      = statusErased (downloadFileRun source target compression { o with status := g })
    ∧ statusErased (parallelRun cfg destination { o with status := f })
      = statusErased (parallelRun cfg destination { o with status := g })
    ∧ statusErased (adamBasicRun cfg adam_command fmts { o with status := f })
      = statusErased (adamBasicRun cfg adam_command fmts { o with status := g })
    ∧ statusErased (adamFlattenRun cfg { o with status := f })
      = statusErased (adamFlattenRun cfg { o with status := g })
    ∧ statusErased (deleteDatasetRun cfg { o with status := f })
      = statusErased (deleteDatasetRun cfg { o with status := g }) := by
  refine ⟨?_, ?_, ?_, ?_, ?_⟩
  · by_cases hmk : o.mkdtempOk = false
    · simp [downloadFileRun, hmk]
    · cases compression
      · simp [downloadFileRun, hmk, statusErased, eraseStatus]
      · by_cases hgz : splitextExt source = ".gz" <;>
          simp [downloadFileRun, hmk, hgz, statusErased, eraseStatus]
  · by_cases hmk : o.mkdtempOk = false
    · simp [parallelRun, hmk]
    · simp only [parallelRun, hmk]
      by_cases hlen : (planSources cfg.sources destination o.s3ex).length = 0
      · simp [hlen, statusErased, eraseStatus]
      · cases hb : (buildCommandLines o.ephemeralMount destination o.randIds
            (planSources cfg.sources destination o.s3ex) 0).2 <;>
          by_cases hmk2 : o.mkdtempOk2 = false <;>
            simp [hlen, hb, hmk2, statusErased, eraseStatus]
  · rcases hsrc : cfg.sources with _ | ⟨s0, rest⟩
    · simp [adamBasicRun, hsrc]
    · by_cases hmem : strLower s0.format ∈ fmts <;>
        simp [adamBasicRun, hsrc, hmem, statusErased, eraseStatus]
  · simp [adamFlattenRun, statusErased, eraseStatus]
  · simp [deleteDatasetRun, statusErased, eraseStatus]

/-- C1: the `_SUCCESS` completion marker protocol on failure.  For the
bulk parallel download with a non-empty pending batch, the marker is
produced at the destination iff the batch job reports success (the only
marker source on that path is the streaming job's own `_SUCCESS` at its
output, written exactly when it succeeds); whenever `parallelRun` raises,
no marker is produced for the destination; whenever `DownloadFileTask.run`
raises, neither the staging upload nor the final move was ever issued, so
nothing reaches its destination; and whenever `ADAMBasicTask.run` raises,
no marker is produced at its target. -/
theorem marker_only_after_batch_success (cfg : Config) (destination : String)
    (o : Oracle) :
    (planSources cfg.sources destination o.s3ex ≠ [] →
      (markerWritten (parallelRun cfg destination o).1 destination = true
        ↔ streamingJobSucceeded (parallelRun cfg destination o).1 = true))
    ∧ (∀ m, (parallelRun cfg destination o).2 = .error m →
        markerWritten (parallelRun cfg destination o).1 destination = false)
    ∧ (∀ source target compression o2 m,
        (downloadFileRun source target compression o2).2 = .error m →
        hasCmdKind .s3upload (downloadFileRun source target compression o2).1 = false
        ∧ hasCmdKind .s3move (downloadFileRun source target compression o2).1 = false)
    ∧ (∀ cfg2 adam_command fmts o3 m,
        (adamBasicRun cfg2 adam_command fmts o3).2 = .error m →
        markerWritten (adamBasicRun cfg2 adam_command fmts o3).1
          (target_s3_url cfg2.name "bdg" "basic") = false) := by
  refine ⟨?_, ?_, ?_, ?_⟩
  · intro hne
    by_cases hmk : o.mkdtempOk = false
    · simp [parallelRun, hmk, markerWritten, streamingJobSucceeded]
    · have hlen : ¬(planSources cfg.sources destination o.s3ex).length = 0 := by
        simpa [List.length_eq_zero] using hne
      simp only [parallelRun, hmk]
      cases hb : (buildCommandLines o.ephemeralMount destination o.randIds
          (planSources cfg.sources destination o.s3ex) 0).2 <;>
        by_cases hmk2 : o.mkdtempOk2 = false <;>
          simp [hlen, hb, hmk2, markerWritten, marksDest, streamingJobSucceeded,
            planEvents]
  · intro m hm
    by_cases hmk : o.mkdtempOk = false
    · simp [parallelRun, hmk, markerWritten]
    · by_cases hlen : (planSources cfg.sources destination o.s3ex).length = 0
      · simp [parallelRun, hmk, hlen] at hm
      · simp only [parallelRun, hmk] at hm ⊢
        cases hb : (buildCommandLines o.ephemeralMount destination o.randIds
            (planSources cfg.sources destination o.s3ex) 0).2 <;>
          by_cases hmk2 : o.mkdtempOk2 = false <;>
            simp [hlen, hb, hmk2, markerWritten, marksDest, planEvents] at hm ⊢
  · intro source target compression o2 m hm
    by_cases hmk : o2.mkdtempOk = false
    · simp [downloadFileRun, hmk, hasCmdKind]
    · cases compression
      · simp [downloadFileRun, hmk] at hm
      · by_cases hgz : splitextExt source = ".gz"
        · simp [downloadFileRun, hmk, hgz] at hm
        · simp [downloadFileRun, hmk, hgz, hasCmdKind]
  · intro cfg2 adam_command fmts o3 m hm
    rcases hsrc : cfg2.sources with _ | ⟨s0, rest⟩
    · simp [adamBasicRun, hsrc, markerWritten]
    · by_cases hmem : strLower s0.format ∈ fmts
      · simp [adamBasicRun, hsrc, hmem] at hm
      · simp [adamBasicRun, hsrc, hmem, markerWritten]

/-- Witness: on a concrete configuration with one pending source and a
successful streaming job, the marker is produced at the destination. -/
theorem marker_only_after_batch_success_witness :
    markerWritten (parallelRun ⟨"ds", [⟨"http://e/a.txt", "vcf", false⟩], ["basic"]⟩
        "s3://dest" oracle0).1 "s3://dest" = true :=
  ((marker_only_after_batch_success
      ⟨"ds", [⟨"http://e/a.txt", "vcf", false⟩], ["basic"]⟩
      "s3://dest" oracle0).1 (by decide)).mpr (by decide)

end Eggo
